import Mathlib

/-!
# Verification of the Economic Dashboard core logic

Shallow embedding of `src/simplified-dashboard.py`.  Floating-point values
are modelled as rationals; the random draws of `np.random.normal` and
`np.random.uniform` are modelled as explicit input streams of standard
draws (`np.random.normal mu sigma` with standard draw `z` becomes
`mu + sigma * z`, `np.random.uniform lo hi` with unit draw `u` in `[0,1)`
becomes `lo + (hi - lo) * u`).  The HTTP fetch of `get_countries` is
modelled as an `Except` input: `.ok` carries a parsed, schema-correct
payload, `.error` stands for any raised exception (network, parse or
schema failure), matching the single `try/except` of the source.
-/

namespace Dashboard

/-- Python's substring test `pat in s` (case-sensitive). -/
def strContains (s pat : String) : Bool :=
  decide (pat.toList <:+: s.toList)

/-- Python's `range(a, b)` over integers: `a, a+1, ..., b-1`; empty when `b ≤ a`. -/
def pyRange (a b : ℤ) : List ℤ :=
  (List.range (b - a).toNat).map (fun i : ℕ => a + (i : ℤ))

/-- `np.random.normal mu sigma` with standard normal draw `z`. -/
def normalDraw (mu sigma z : ℚ) : ℚ := mu + sigma * z

/-- The raw (pre-smoothing) values of `get_sample_data`
(lines 89-98 of `simplified-dashboard.py`): branch on substrings of the
indicator name, with `n` the number of years and `z` the stream of
standard normal draws. -/
def rawValues (indicator : String) (n : Nat) (z : Nat → ℚ) : List ℚ :=
  if strContains indicator "GDP" && strContains indicator "growth" then
    (List.range n).map (fun i => normalDraw 3 1 (z i))
  else if strContains indicator "Inflation" then
    (List.range n).map (fun i => normalDraw (5/2) (4/5) (z i))
  else
    let base : ℚ := if strContains indicator "GDP" then 1 else 200
    (List.range n).map (fun i => base * (1 + 3/100) ^ i)

/-- The in-place smoothing loop from index 1 onward
(`values[i] = 0.7 * values[i-1] + 0.3 * values[i]`), after the head has
been fixed: `prev` is the already-smoothed previous value. -/
def smoothAux (prev : ℚ) : List ℚ → List ℚ
  | [] => []
  | x :: xs =>
    let y := 7/10 * prev + 3/10 * x
    y :: smoothAux y xs

/-- The smoothing pass of `get_sample_data` (lines 100-102): index 0 is
kept, every later index is overwritten left to right using the
already-smoothed previous value. -/
def smooth : List ℚ → List ℚ
  | [] => []
  | x :: xs => x :: smoothAux x xs

/-- `get_sample_data indicator start_year end_year`: the returned frame as
the list of `(year, value)` rows. -/
def get_sample_data (indicator : String) (start_year end_year : ℤ)
    (z : Nat → ℚ) : List (ℤ × ℚ) :=
  let years := pyRange start_year (end_year + 1)
  years.zip (smooth (rawValues indicator years.length z))

/-- A row of the countries frame. -/
structure Country where
  id : String
  name : String
  region : String
deriving DecidableEq, Repr

/-- A schema-correct element of the World Bank payload, keeping the fields
the code reads: `country['id']`, `country['name']`, `country['region']['value']`. -/
structure RawCountry where
  id : String
  name : String
  regionValue : String
deriving DecidableEq, Repr

/-- `get_countries` (lines 44-71): on a successful fetch, drop the
aggregates and keep id/name/region; on any exception, return the
hardcoded 5-country fallback frame. -/
def get_countries (fetch : Except String (List RawCountry)) : List Country :=
  match fetch with
  | .ok data =>
    (data.filter (fun c => c.regionValue != "Aggregates")).map
      (fun c => ⟨c.id, c.name, c.regionValue⟩)
  | .error _ =>
    [⟨"USA", "United States", "North America"⟩,
     ⟨"GBR", "United Kingdom", "Europe & Central Asia"⟩,
     ⟨"JPN", "Japan", "East Asia & Pacific"⟩,
     ⟨"DEU", "Germany", "Europe & Central Asia"⟩,
     ⟨"IND", "India", "South Asia"⟩]

/-- `calculate_risk_score` (lines 109-112): ignores `indicators_data` and
returns `np.random.uniform(2, 8)`, modelled with unit draw `u`. -/
def calculate_risk_score (indicators_data : List (String × List (ℤ × ℚ)))
    (u : ℚ) : ℚ :=
  2 + (8 - 2) * u

/-- `risk_analysis` (lines 114-121): score to (label, css tag). -/
def risk_analysis (score : ℚ) : String × String :=
  if score ≥ 7 then ("High Risk", "risk-high")
  else if score ≥ 4 then ("Medium Risk", "risk-medium")
  else ("Low Risk", "risk-low")

/-- `generate_outlook` (lines 123-130): score to narrative sentence. -/
def generate_outlook (score : ℚ) : String :=
  if score ≥ 7 then
    "Economic conditions face significant headwinds. Policy intervention may be needed to stabilize growth and inflation."
  else if score ≥ 4 then
    "Economic conditions show mixed signals with moderate risks. Careful monitoring recommended."
  else
    "Economic conditions appear favorable with positive outlook for sustained growth and stability."

/- ### Basic lemmas about the smoothing pass -/

theorem length_smoothAux (prev : ℚ) (l : List ℚ) :
    (smoothAux prev l).length = l.length := by
  induction l generalizing prev with
  | nil => rfl
  | cons x xs ih => simp [smoothAux, ih]

theorem length_smooth (l : List ℚ) : (smooth l).length = l.length := by
  cases l with
  | nil => rfl
  | cons x xs => simp [smooth, length_smoothAux]

theorem length_rawValues (indicator : String) (n : Nat) (z : Nat → ℚ) :
    (rawValues indicator n z).length = n := by
  unfold rawValues
  split <;> [simp; split <;> simp]

theorem length_pyRange (a b : ℤ) : (pyRange a b).length = (b - a).toNat := by
  rw [pyRange, List.length_map, List.length_range]

theorem getD_pyRange (a b : ℤ) (i : Nat) (h : i < (b - a).toNat) :
    (pyRange a b).getD i 0 = a + (i : ℤ) := by
  have hl : i < (pyRange a b).length := by rw [length_pyRange]; exact h
  rw [List.getD_eq_getElem _ _ hl]
  simp only [pyRange, List.getElem_map, List.getElem_range]

theorem getD_map_range (f : Nat → ℚ) (n i : Nat) (h : i < n) (d : ℚ) :
    ((List.range n).map f).getD i d = f i := by
  have hl : i < ((List.range n).map f).length := by
    rw [List.length_map, List.length_range]; exact h
  rw [List.getD_eq_getElem _ _ hl]
  simp only [List.getElem_map, List.getElem_range]

theorem smoothAux_getD_zero (prev : ℚ) (l : List ℚ) (h : 0 < l.length) :
    (smoothAux prev l).getD 0 0 = 7/10 * prev + 3/10 * l.getD 0 0 := by
  cases l with
  | nil => simp at h
  | cons x xs => simp [smoothAux]

theorem smoothAux_getD_succ (l : List ℚ) (prev : ℚ) (i : Nat)
    (h : i + 1 < l.length) :
    (smoothAux prev l).getD (i + 1) 0 =
      7/10 * (smoothAux prev l).getD i 0 + 3/10 * l.getD (i + 1) 0 := by
  induction l generalizing prev i with
  | nil => simp at h
  | cons x xs ih =>
    cases i with
    | zero =>
      have hx : 0 < xs.length := by simpa using h
      simp only [smoothAux, List.getD_cons_succ, List.getD_cons_zero]
      exact smoothAux_getD_zero _ xs hx
    | succ j =>
      have hx : j + 1 < xs.length := by simpa using h
      simp only [smoothAux, List.getD_cons_succ]
      exact ih _ j hx

theorem smooth_getD_zero (l : List ℚ) (h : 0 < l.length) :
    (smooth l).getD 0 0 = l.getD 0 0 := by
  cases l with
  | nil => simp at h
  | cons x xs => simp [smooth]

theorem smooth_getD_succ (l : List ℚ) (i : Nat) (h : i + 1 < l.length) :
    (smooth l).getD (i + 1) 0 =
      7/10 * (smooth l).getD i 0 + 3/10 * l.getD (i + 1) 0 := by
  cases l with
  | nil => simp at h
  | cons x xs =>
    cases i with
    | zero =>
      have hx : 0 < xs.length := by simpa using h
      simp only [smooth, List.getD_cons_succ, List.getD_cons_zero]
      exact smoothAux_getD_zero x xs hx
    | succ j =>
      have hx : j + 1 < xs.length := by simpa using h
      simp only [smooth, List.getD_cons_succ]
      exact smoothAux_getD_succ xs x j hx

theorem getD_zip {α β : Type} (l₁ : List α) (l₂ : List β) (i : Nat)
    (d₁ : α) (d₂ : β) (h₁ : i < l₁.length) (h₂ : i < l₂.length) :
    (l₁.zip l₂).getD i (d₁, d₂) = (l₁.getD i d₁, l₂.getD i d₂) := by
  have hl : i < (l₁.zip l₂).length := by
    rw [List.length_zip]; exact lt_min h₁ h₂
  rw [List.getD_eq_getElem _ _ hl, List.getD_eq_getElem _ _ h₁,
    List.getD_eq_getElem _ _ h₂, List.getElem_zip]

theorem smoothAux_bounds (l : List ℚ) :
    ∀ (prev lo hi : ℚ), lo ≤ prev → prev ≤ hi →
    ∀ i, i < l.length → (∀ j, j ≤ i → lo ≤ l.getD j 0 ∧ l.getD j 0 ≤ hi) →
    lo ≤ (smoothAux prev l).getD i 0 ∧ (smoothAux prev l).getD i 0 ≤ hi := by
  induction l with
  | nil =>
    intro prev lo hi _ _ i hl
    simp at hl
  | cons x xs ih =>
    intro prev lo hi hlo hhi i hl hb
    have hx := hb 0 (Nat.zero_le i)
    rw [List.getD_cons_zero] at hx
    cases i with
    | zero =>
      simp only [smoothAux, List.getD_cons_zero]
      constructor <;> linarith [hx.1, hx.2]
    | succ j =>
      simp only [smoothAux, List.getD_cons_succ]
      apply ih (7/10 * prev + 3/10 * x) lo hi (by linarith [hx.1]) (by linarith [hx.2]) j
        (by simpa using hl)
      intro k hk
      have hk' := hb (k + 1) (by omega)
      rwa [List.getD_cons_succ] at hk'

theorem smooth_bounds (l : List ℚ) (i : Nat) (h : i < l.length) (lo hi : ℚ)
    (hb : ∀ j, j ≤ i → lo ≤ l.getD j 0 ∧ l.getD j 0 ≤ hi) :
    lo ≤ (smooth l).getD i 0 ∧ (smooth l).getD i 0 ≤ hi := by
  cases l with
  | nil => simp at h
  | cons x xs =>
    have hx := hb 0 (Nat.zero_le i)
    rw [List.getD_cons_zero] at hx
    cases i with
    | zero =>
      simp only [smooth, List.getD_cons_zero]
      exact hx
    | succ j =>
      simp only [smooth, List.getD_cons_succ]
      apply smoothAux_bounds xs x lo hi hx.1 hx.2 j (by simpa using h)
      intro k hk
      have hk' := hb (k + 1) (by omega)
      rwa [List.getD_cons_succ] at hk'

theorem smooth_geom_le (b : ℚ) (hb : 0 < b) (n : Nat) :
    ∀ i, i < n →
      (smooth ((List.range n).map (fun k => b * (1 + 3/100 : ℚ) ^ k))).getD i 0
        ≤ b * (1 + 3/100) ^ i := by
  intro i
  induction i with
  | zero =>
    intro h0
    have hlen : 0 < ((List.range n).map (fun k => b * (1 + 3/100 : ℚ) ^ k)).length := by
      rw [List.length_map, List.length_range]; exact h0
    rw [smooth_getD_zero _ hlen, getD_map_range _ _ _ h0]
  | succ j ihj =>
    intro h
    have hj : j < n := by omega
    have hlen : j + 1 < ((List.range n).map (fun k => b * (1 + 3/100 : ℚ) ^ k)).length := by
      rw [List.length_map, List.length_range]; exact h
    rw [smooth_getD_succ _ _ hlen, getD_map_range _ _ _ h]
    have hpow : (0 : ℚ) < (1 + 3/100) ^ j := by positivity
    have hstep : b * (1 + 3/100 : ℚ) ^ j ≤ b * (1 + 3/100) ^ (j + 1) := by
      rw [pow_succ]
      nlinarith [mul_pos hb hpow]
    have hle := ihj hj
    linarith

theorem smooth_geom_lt (b : ℚ) (hb : 0 < b) (n : Nat) :
    ∀ i, i + 1 < n →
      (smooth ((List.range n).map (fun k => b * (1 + 3/100 : ℚ) ^ k))).getD i 0
        < (smooth ((List.range n).map (fun k => b * (1 + 3/100 : ℚ) ^ k))).getD (i + 1) 0 := by
  intro i h
  have hi : i < n := by omega
  have hlen : i + 1 < ((List.range n).map (fun k => b * (1 + 3/100 : ℚ) ^ k)).length := by
    rw [List.length_map, List.length_range]; exact h
  rw [smooth_getD_succ _ _ hlen, getD_map_range _ _ _ h]
  have hle := smooth_geom_le b hb n i hi
  have hpow : (0 : ℚ) < (1 + 3/100) ^ i := by positivity
  have hlt : b * (1 + 3/100 : ℚ) ^ i < b * (1 + 3/100) ^ (i + 1) := by
    rw [pow_succ]
    nlinarith [mul_pos hb hpow]
  linarith

/- ### Claim theorems -/

/-- C1: the raw-value rule is selected by substring inspection in
priority order: a name containing both "GDP" and "growth" draws year
values from a normal distribution with mean 3 and standard deviation 1;
otherwise a name containing "Inflation" draws with mean 5/2 and standard
deviation 4/5; otherwise the value at position `i` is
`base * 1.03 ^ i` with `base = 1` for names containing "GDP" and `200`
otherwise, with no dependence on the random draws. -/
theorem rawValues_branch_selection :
    ∀ (indicator : String) (n : Nat) (z : Nat → ℚ) (i : Nat), i < n →
    ((strContains indicator "GDP" && strContains indicator "growth") = true →
      (rawValues indicator n z).getD i 0 = 3 + 1 * z i)
  ∧ ((strContains indicator "GDP" && strContains indicator "growth") = false →
      strContains indicator "Inflation" = true →
      (rawValues indicator n z).getD i 0 = 5/2 + 4/5 * z i)
  ∧ ((strContains indicator "GDP" && strContains indicator "growth") = false →
      strContains indicator "Inflation" = false →
      (rawValues indicator n z).getD i 0 =
        (if strContains indicator "GDP" then (1 : ℚ) else 200) * (103/100) ^ i
      ∧ ∀ z' : Nat → ℚ, rawValues indicator n z = rawValues indicator n z') := by
  intro ind n z i h
  refine ⟨fun h1 => ?_, fun h1 h2 => ?_, fun h1 h2 => ?_⟩
  · rw [rawValues, if_pos h1, getD_map_range _ _ _ h]
    simp [normalDraw]
  · rw [rawValues, if_neg (by simp [h1]), if_pos h2, getD_map_range _ _ _ h]
    simp [normalDraw]
  · have key : ∀ w : Nat → ℚ, rawValues ind n w = (List.range n).map
        (fun k => (if strContains ind "GDP" then (1 : ℚ) else 200) * (1 + 3/100) ^ k) := by
      intro w
      simp [rawValues, h1, h2]
    refine ⟨?_, fun z' => ?_⟩
    · rw [key z, getD_map_range _ _ _ h]
      norm_num
    · rw [key z, key z']

/-- C1 witness: the growth branch at the catalog name
"GDP growth (annual %)" with constant standard draw 2. -/
theorem rawValues_branch_selection_witness :
    (rawValues "GDP growth (annual %)" 1 (fun _ => 2)).getD 0 0 = 3 + 1 * 2 :=
  (rawValues_branch_selection "GDP growth (annual %)" 1 (fun _ => 2) 0
    (by norm_num)).1 (by decide)

/-- C4: for `end_year ≥ start_year` the generator returns exactly
`end_year - start_year + 1` rows whose year column starts at
`start_year` and increases by 1 at each index. -/
theorem get_sample_data_length_and_years :
    ∀ (indicator : String) (start_year end_year : ℤ) (z : Nat → ℚ),
      start_year ≤ end_year →
      ((get_sample_data indicator start_year end_year z).length : ℤ)
          = end_year - start_year + 1
      ∧ ∀ i : Nat, i < (get_sample_data indicator start_year end_year z).length →
          ((get_sample_data indicator start_year end_year z).getD i (0, 0)).1
            = start_year + (i : ℤ) := by
  intro ind s e z h
  have hylen : (pyRange s (e + 1)).length = (e + 1 - s).toNat := length_pyRange s (e + 1)
  have hvlen :
      (smooth (rawValues ind (pyRange s (e + 1)).length z)).length
        = (pyRange s (e + 1)).length := by
    rw [length_smooth, length_rawValues]
  have hlen : (get_sample_data ind s e z).length = (e + 1 - s).toNat := by
    simp only [get_sample_data]
    rw [List.length_zip, hvlen, min_self, hylen]
  constructor
  · rw [hlen]; omega
  · intro i hi
    rw [hlen] at hi
    have hiy : i < (pyRange s (e + 1)).length := by rw [hylen]; exact hi
    have hiv : i < (smooth (rawValues ind (pyRange s (e + 1)).length z)).length := by
      rw [hvlen]; exact hiy
    simp only [get_sample_data]
    rw [getD_zip _ _ _ _ _ hiy hiv]
    show (pyRange s (e + 1)).getD i 0 = _
    rw [getD_pyRange _ _ _ hi]

/-- C4 witness: the range 2015..2017 yields 3 rows with years
2015, 2016, 2017 (checked at index 2). -/
theorem get_sample_data_length_and_years_witness :
    ((get_sample_data "GDP (current US$)" 2015 2017 (fun _ => 0)).length : ℤ)
        = 2017 - 2015 + 1
      ∧ ∀ i : Nat, i < (get_sample_data "GDP (current US$)" 2015 2017 (fun _ => 0)).length →
          ((get_sample_data "GDP (current US$)" 2015 2017 (fun _ => 0)).getD i (0, 0)).1
            = 2015 + (i : ℤ) :=
  get_sample_data_length_and_years "GDP (current US$)" 2015 2017 (fun _ => 0)
    (by norm_num)

/-- C7: classification is case-sensitive: the lowercase name
"gdp growth" matches neither "GDP" nor "Inflation", so it falls through
to the absolute-level branch with base 200. -/
theorem lowercase_name_falls_through :
    strContains "gdp growth" "GDP" = false
  ∧ strContains "gdp growth" "Inflation" = false
  ∧ ∀ (n : Nat) (z : Nat → ℚ),
      rawValues "gdp growth" n z =
        (List.range n).map (fun i => (200 : ℚ) * (103/100) ^ i) := by
  refine ⟨by decide, by decide, ?_⟩
  intro n z
  have h1 : (strContains "gdp growth" "GDP" && strContains "gdp growth" "growth") = false := by
    decide
  have h2 : strContains "gdp growth" "Inflation" = false := by decide
  have h3 : strContains "gdp growth" "GDP" = false := by decide
  rw [rawValues, if_neg (by simp [h1]), if_neg (by simp [h2])]
  show (List.range n).map _ = _
  rw [h3]
  congr 1
  funext i
  norm_num

/-- C2: the smoothing pass keeps the length, never changes index 0, and
overwrites each later index, left to right, with `0.7` times the
already-smoothed previous value plus `0.3` times the raw value there; on
`[r0, r1, r2]` it yields exactly the unrolled recurrence. -/
theorem smooth_recurrence :
    (∀ l : List ℚ, (smooth l).length = l.length)
  ∧ (∀ l : List ℚ, 0 < l.length → (smooth l).getD 0 0 = l.getD 0 0)
  ∧ (∀ (l : List ℚ) (i : Nat), i + 1 < l.length →
      (smooth l).getD (i + 1) 0 =
        7/10 * (smooth l).getD i 0 + 3/10 * l.getD (i + 1) 0)
  ∧ (∀ r0 r1 r2 : ℚ, smooth [r0, r1, r2] =
      [r0, 7/10 * r0 + 3/10 * r1,
        7/10 * (7/10 * r0 + 3/10 * r1) + 3/10 * r2]) := by
  refine ⟨length_smooth, smooth_getD_zero, smooth_getD_succ, ?_⟩
  intro r0 r1 r2
  simp [smooth, smoothAux]

/-- C2 witness: the recurrence evaluated at the list `[1, 2, 4]`. -/
theorem smooth_recurrence_witness :
    (smooth [(1 : ℚ), 2, 4]).getD 1 0 =
      7/10 * (smooth [(1 : ℚ), 2, 4]).getD 0 0 + 3/10 * ([(1 : ℚ), 2, 4]).getD 1 0 :=
  smooth_recurrence.2.2.1 [(1 : ℚ), 2, 4] 0 (by norm_num)

/-- C3: the risk classification thresholds: `score ≥ 7` is High Risk with
tag `risk-high` and the headwinds sentence, `4 ≤ score < 7` is Medium Risk
with tag `risk-medium` and the mixed-signals sentence, `score < 4` is Low
Risk with tag `risk-low` and the favorable sentence; the spec's sample
scores classify accordingly, with no special-casing outside `[2, 8]`. -/
theorem risk_classification_thresholds :
    (∀ score : ℚ,
      (7 ≤ score → risk_analysis score = ("High Risk", "risk-high") ∧
        generate_outlook score =
          "Economic conditions face significant headwinds. Policy intervention may be needed to stabilize growth and inflation.")
      ∧ (4 ≤ score → score < 7 → risk_analysis score = ("Medium Risk", "risk-medium") ∧
        generate_outlook score =
          "Economic conditions show mixed signals with moderate risks. Careful monitoring recommended.")
      ∧ (score < 4 → risk_analysis score = ("Low Risk", "risk-low") ∧
        generate_outlook score =
          "Economic conditions appear favorable with positive outlook for sustained growth and stability."))
  ∧ (risk_analysis 7).1 = "High Risk"
  ∧ (risk_analysis (6999/1000)).1 = "Medium Risk"
  ∧ (risk_analysis 4).1 = "Medium Risk"
  ∧ (risk_analysis (3999/1000)).1 = "Low Risk"
  ∧ (risk_analysis 2).1 = "Low Risk"
  ∧ (risk_analysis 100).1 = "High Risk"
  ∧ (risk_analysis (-5)).1 = "Low Risk" := by
  constructor
  · intro score
    refine ⟨fun h7 => ?_, fun h4 h7 => ?_, fun h4 => ?_⟩
    · constructor
      · simp only [risk_analysis]; rw [if_pos (by linarith)]
      · simp only [generate_outlook]; rw [if_pos (by linarith)]
    · constructor
      · simp only [risk_analysis]; rw [if_neg (by linarith), if_pos (by linarith)]
      · simp only [generate_outlook]; rw [if_neg (by linarith), if_pos (by linarith)]
    · constructor
      · simp only [risk_analysis]; rw [if_neg (by linarith), if_neg (by linarith)]
      · simp only [generate_outlook]; rw [if_neg (by linarith), if_neg (by linarith)]
  · refine ⟨?_, ?_, ?_, ?_, ?_, ?_, ?_⟩ <;> norm_num [risk_analysis]

/-- C3 witness: threshold behaviour at the boundary score `7`. -/
theorem risk_classification_thresholds_witness :
    risk_analysis 7 = ("High Risk", "risk-high") ∧
      generate_outlook 7 =
        "Economic conditions face significant headwinds. Policy intervention may be needed to stabilize growth and inflation." :=
  (risk_classification_thresholds.1 7).1 (by norm_num)

/-- C5: whenever the fetch raises (for any reason the exception carries),
`get_countries` swallows the error and returns exactly the hardcoded
5-country frame with these id/name/region triples. -/
theorem get_countries_fallback : ∀ msg : String,
    get_countries (.error msg) =
      [⟨"USA", "United States", "North America"⟩,
       ⟨"GBR", "United Kingdom", "Europe & Central Asia"⟩,
       ⟨"JPN", "Japan", "East Asia & Pacific"⟩,
       ⟨"DEU", "Germany", "Europe & Central Asia"⟩,
       ⟨"IND", "India", "South Asia"⟩] := by
  intro msg
  rfl

/-- C6: the risk score lies in `[2, 8]` whenever the unit draw lies in
`[0, 1]`, and it is independent of the indicator data: two calls with
different data but the same draw return the same value. -/
theorem calculate_risk_score_range_and_independence :
    ∀ (d₁ d₂ : List (String × List (ℤ × ℚ))) (u : ℚ), 0 ≤ u → u ≤ 1 →
      2 ≤ calculate_risk_score d₁ u ∧ calculate_risk_score d₁ u ≤ 8 ∧
        calculate_risk_score d₁ u = calculate_risk_score d₂ u := by
  intro d₁ d₂ u h0 h1
  refine ⟨?_, ?_, rfl⟩ <;> simp only [calculate_risk_score] <;> linarith

/-- C6 witness: the bounds and independence at draw `1/2` with two
different data inputs. -/
theorem calculate_risk_score_range_and_independence_witness :
    2 ≤ calculate_risk_score [] (1/2) ∧ calculate_risk_score [] (1/2) ≤ 8 ∧
      calculate_risk_score [] (1/2) =
        calculate_risk_score [("GDP (current US$)", [(2015, 1)])] (1/2) :=
  calculate_risk_score_range_and_independence [] [("GDP (current US$)", [(2015, 1)])]
    (1/2) (by norm_num) (by norm_num)

/-- C8: when `end_year < start_year` the generator returns the empty
series, raising no error. -/
theorem get_sample_data_empty_range :
    ∀ (indicator : String) (start_year end_year : ℤ) (z : Nat → ℚ),
      end_year < start_year →
      get_sample_data indicator start_year end_year z = [] := by
  intro indicator s e z h
  have hy : pyRange s (e + 1) = [] := by
    apply List.eq_nil_of_length_eq_zero
    rw [length_pyRange]
    omega
  simp [get_sample_data, hy]

/-- C8 witness: the empty series at range `2023..2015`. -/
theorem get_sample_data_empty_range_witness :
    get_sample_data "GDP (current US$)" 2023 2015 (fun _ => 0) = [] :=
  get_sample_data_empty_range "GDP (current US$)" 2023 2015 (fun _ => 0) (by norm_num)

/-- C9: the classifier (label, tag and outlook sentence) is a pure
function of the score: equal scores give identical triples, with no
hidden state to consult. -/
theorem risk_classifier_deterministic :
    ∀ s t : ℚ, s = t →
      (risk_analysis s, generate_outlook s) = (risk_analysis t, generate_outlook t) := by
  intro s t h
  rw [h]

/-- C9 witness: determinism at score `5`. -/
theorem risk_classifier_deterministic_witness :
    (risk_analysis 5, generate_outlook 5) = (risk_analysis 5, generate_outlook 5) :=
  risk_classifier_deterministic 5 5 rfl

/-- C10: each smoothed value is a convex combination of the raw values up
to its position, hence lies between their minimum and maximum (stated via
an arbitrary pair of bounds enclosing the prefix), and index 0 is
returned exactly; on the deterministic absolute-level branch the smoothed
series is strictly increasing and bounded above by `base * 1.03 ^ i`. -/
theorem smooth_convexity_invariants :
    (∀ l : List ℚ, 0 < l.length → (smooth l).getD 0 0 = l.getD 0 0)
  ∧ (∀ (l : List ℚ) (i : Nat), i < l.length → ∀ lo hi : ℚ,
      (∀ j, j ≤ i → lo ≤ l.getD j 0 ∧ l.getD j 0 ≤ hi) →
      lo ≤ (smooth l).getD i 0 ∧ (smooth l).getD i 0 ≤ hi)
  ∧ (∀ (indicator : String) (n : Nat) (z : Nat → ℚ),
      (strContains indicator "GDP" && strContains indicator "growth") = false →
      strContains indicator "Inflation" = false →
      (∀ i, i + 1 < n →
        (smooth (rawValues indicator n z)).getD i 0
          < (smooth (rawValues indicator n z)).getD (i + 1) 0)
      ∧ (∀ i, i < n →
        (smooth (rawValues indicator n z)).getD i 0
          ≤ (if strContains indicator "GDP" then (1 : ℚ) else 200) * (103/100) ^ i)) := by
  refine ⟨smooth_getD_zero, smooth_bounds, ?_⟩
  intro ind n z h1 h2
  have key : rawValues ind n z = (List.range n).map
      (fun k => (if strContains ind "GDP" then (1 : ℚ) else 200) * (1 + 3/100) ^ k) := by
    simp [rawValues, h1, h2]
  have hb : (0 : ℚ) < if strContains ind "GDP" then (1 : ℚ) else 200 := by
    split <;> norm_num
  simp only [show (103/100 : ℚ) = 1 + 3/100 from by norm_num]
  rw [key]
  exact ⟨smooth_geom_lt _ hb n, smooth_geom_le _ hb n⟩

/-- C10 witness: the head of the smoothed series equals the head of the
raw series on the list `[5]`. -/
theorem smooth_convexity_invariants_witness :
    (smooth [(5 : ℚ)]).getD 0 0 = [(5 : ℚ)].getD 0 0 :=
  smooth_convexity_invariants.1 [(5 : ℚ)] (by norm_num)

end Dashboard
